import Mathlib

/-!
Shallow embedding of the document extraction / text-analysis / scoring
pipeline of the venture-capital due-diligence backend
(`backend/app/services/document_processor.py`, `nlp_processor.py`,
`scoring_engine.py` and the document endpoints in
`backend/app/api/v1/endpoints/documents.py`).

Modelling conventions:
  * Python `float` is modelled as `ℚ` (all constants in the code are
    exact decimals); `round(x, 2)` is modelled as rounding to a multiple
    of `1/100` (`round2` below).  Python rounds halves to even while the
    model rounds halves up; the two agree everywhere except at exact
    half-hundredths, which none of the stated properties touch.
  * Python strings are Lean `String`s; `str.lower`, `str.split`,
    `str.strip`, substring tests (`in`), `str.find` and slicing are
    modelled character-exactly (ASCII; the keyword tables of the source
    are all ASCII).
  * The spaCy named-entity pass and the regex-template extractors
    (financial metrics, market sizes, founders) depend on an external NLP
    model resp. on `re`; they are abstracted as an oracle record
    (`MinerOracle`).  Every theorem about analyzer-produced results is
    stated for an arbitrary oracle, so it covers every possible output of
    those components.  All keyword-table driven sub-extractions (risk
    factors, topics, sentiment, classification, business insights) are
    modelled in full.
  * The human-readable reasoning strings of the scoring engine are not
    modelled; no stated property mentions them.
-/

/-! ## Python string primitives -/

/-- Python `str.isspace` for the characters that can occur here
(ASCII whitespace, including vertical tab and form feed). -/
def py_isspace (c : Char) : Bool :=
  c = ' ' || c = '\t' || c = '\n' || c = '\r' || c = '\x0b' || c = '\x0c'

/-- Python `needle in hay` on character lists. -/
def contains_list (needle : List Char) : List Char → Bool
  | [] => needle.isEmpty
  | c :: rest => needle.isPrefixOf (c :: rest) || contains_list needle rest

/-- Python `needle in hay` on strings. -/
def py_contains (hay needle : String) : Bool :=
  contains_list needle.data hay.data

/-- Helper for `py_find`: first index at or after `i` where `needle`
starts in the remaining list. -/
def find_from (needle : List Char) : List Char → Nat → Option Nat
  | [], i => if needle.isEmpty then some i else none
  | c :: t, i => if needle.isPrefixOf (c :: t) then some i else find_from needle t (i + 1)

/-- Python `hay.find(needle)` (the callers below only use it after an
`in` check, so the not-found case is irrelevant and mapped to 0). -/
def py_find (hay needle : String) : Nat :=
  (find_from needle.data hay.data 0).getD 0

/-- Python slice `s[lo:hi]` for nonnegative bounds. -/
def py_slice (s : String) (lo hi : Nat) : String :=
  String.mk ((s.data.drop lo).take (hi - lo))

/-- Python `str.strip()` on a character list. -/
def strip_chars (l : List Char) : List Char :=
  ((l.dropWhile py_isspace).reverse.dropWhile py_isspace).reverse

/-- Python `str.strip()`. -/
def py_strip (s : String) : String :=
  String.mk (strip_chars s.data)

/-- Helper for `words_of`: accumulates the current word (reversed). -/
def words_aux : List Char → List Char → List (List Char)
  | [], acc => if acc.isEmpty then [] else [acc.reverse]
  | c :: t, acc =>
    if py_isspace c then
      if acc.isEmpty then words_aux t [] else acc.reverse :: words_aux t []
    else
      words_aux t (c :: acc)

/-- Python `str.split()` (split on whitespace runs, no empty words). -/
def words_of (l : List Char) : List (List Char) :=
  words_aux l []

/-- Number of words of a string, `len(s.split())`. -/
def word_count (s : String) : Nat :=
  (words_of s.data).length

/-- ASCII lowercase of one character. -/
def char_lower (c : Char) : Char :=
  if 65 ≤ c.toNat ∧ c.toNat ≤ 90 then Char.ofNat (c.toNat + 32) else c

/-- Python `str.lower` (ASCII). -/
def py_lower (s : String) : String :=
  String.mk (s.data.map char_lower)

/-- Helper for `raw_segments`: split on `.`, `!`, `?` keeping empty
segments (consecutive delimiters give empty segments, which the caller
filters out, so this agrees with splitting on the regex `[.!?]+`). -/
def raw_seg_aux : List Char → List Char → List (List Char)
  | [], acc => [acc.reverse]
  | c :: t, acc =>
    if c = '.' || c = '!' || c = '?' then acc.reverse :: raw_seg_aux t []
    else raw_seg_aux t (c :: acc)

/-- Segments of a string between sentence-ending punctuation. -/
def raw_segments (s : String) : List (List Char) :=
  raw_seg_aux s.data []

/-- `NLPProcessor._split_sentences`: split on `[.!?]+`, strip each piece
and keep the non-empty ones. -/
def split_sentences (s : String) : List String :=
  ((raw_segments s).map strip_chars).filterMap
    (fun l => if l.isEmpty then none else some (String.mk l))

/-- Helper for `collapse_ws`: the flag records whether the previous
character was whitespace (so a run collapses to one space). -/
def collapse_aux : List Char → Bool → List Char
  | [], _ => []
  | c :: t, prev =>
    if py_isspace c then
      if prev then collapse_aux t true else ' ' :: collapse_aux t true
    else
      c :: collapse_aux t false

/-- `re.sub(r'\s+', ' ', text)`. -/
def collapse_ws (l : List Char) : List Char :=
  collapse_aux l false

/-- The character class kept by `_preprocess_text`:
`[\w\s.,!?;:\-()$%]` (ASCII reading of `\w`). -/
def allowed_char (c : Char) : Bool :=
  c.isAlphanum || c = '_' || py_isspace c ||
    c = '.' || c = ',' || c = '!' || c = '?' || c = ';' || c = ':' ||
    c = '-' || c = '(' || c = ')' || c = '$' || c = '%'

/-- `NLPProcessor._preprocess_text`: collapse whitespace runs, drop
disallowed characters, strip. -/
def preprocess_text (s : String) : String :=
  String.mk (strip_chars ((collapse_ws s.data).filter allowed_char))

/-- Digits-to-number helper for `parse_decimal`. -/
def digits_val : List Char → Option Nat
  | [] => none
  | l => l.foldl (fun acc c => match acc with
      | none => none
      | some n => if c.isDigit then some (n * 10 + (c.toNat - 48)) else none)
      (some 0)

/-- Model of Python `float(s)` for the comma-stripped numeric strings
captured by the market-size regexes: an integer part, optionally a dot
and a fractional part.  Any other shape raises `ValueError` in Python,
modelled as `none`. -/
def parse_decimal (s : String) : Option ℚ :=
  match s.data.splitOn '.' with
  | [intpart] => (digits_val intpart).map (fun n => (n : ℚ))
  | [intpart, fracpart] =>
    match intpart, fracpart with
    | [], [] => none
    | [], f => (digits_val f).map (fun m => (m : ℚ) / (10 : ℚ) ^ f.length)
    | i, [] => (digits_val i).map (fun n => (n : ℚ))
    | i, f =>
      match digits_val i, digits_val f with
      | some n, some m => some ((n : ℚ) + (m : ℚ) / (10 : ℚ) ^ f.length)
      | _, _ => none
  | _ => none

/-- Python `max(scores, key=...)` over an insertion-ordered association
list: the first entry with maximal value wins. -/
def pick_max : List (String × ℚ) → Option (String × ℚ)
  | [] => none
  | p :: rest =>
    match pick_max rest with
    | none => some p
    | some q => if q.2 > p.2 then some q else some p

/-! ## Data model (`nlp_processor.py` result dictionaries) -/

/-- One named entity (`entity_info` in `_extract_entities`). -/
structure EntityInfo where
  text : String
  label : String
  confidence : ℚ
deriving DecidableEq

/-- The seven entity buckets of `_extract_entities`. -/
structure Entities where
  organizations : List EntityInfo
  people : List EntityInfo
  locations : List EntityInfo
  money : List EntityInfo
  dates : List EntityInfo
  products : List EntityInfo
  technologies : List EntityInfo
deriving DecidableEq

/-- One extracted financial metric (`_extract_financial_metrics`);
`metric_type` models the `type` key. -/
structure FinMetric where
  metric_type : String
  amount : ℚ
  unit : String
  text : String
  confidence : ℚ
deriving DecidableEq

/-- The five metric families of `_extract_financial_metrics`. -/
structure FinancialMetrics where
  revenue_metrics : List FinMetric
  funding_metrics : List FinMetric
  profitability_metrics : List FinMetric
  growth_metrics : List FinMetric
  valuation_metrics : List FinMetric
deriving DecidableEq

/-- `_extract_business_insights` result. -/
structure BusinessInsights where
  business_model : Option String
  revenue_model : Option String
  target_market : List String
  value_proposition : List String
  competitive_advantages : List String
deriving DecidableEq

/-- One market-size mention (`_extract_market_information`); the amount
is kept as the raw captured string, parsed only by the scoring engine. -/
structure MarketSizeInfo where
  amount : String
  unit : String
  context : String
deriving DecidableEq

/-- `_extract_market_information` result. -/
structure MarketAnalysis where
  market_size : List MarketSizeInfo
  competitors : List String
  market_trends : List String
  opportunities : List String
deriving DecidableEq

/-- One founder mention (`_extract_team_information`). -/
structure Founder where
  name : String
  role : String
  context : String
deriving DecidableEq

/-- `_extract_team_information` result. -/
structure TeamInformation where
  founders : List Founder
  key_personnel : List String
  team_size : Option Int
  experience_highlights : List String
deriving DecidableEq

/-- One identified risk factor (`_identify_risk_factors`). -/
structure RiskFactor where
  category : String
  keyword : String
  context : String
  severity : String
  confidence : ℚ
deriving DecidableEq

/-- `_analyze_sentiment` result; `positive_frac`/`negative_frac` model
the `positive_ratio`/`negative_ratio` keys. -/
structure Sentiment where
  sentiment : String
  confidence : ℚ
  positive_indicators : Nat
  negative_indicators : Nat
  positive_frac : ℚ
  negative_frac : ℚ
deriving DecidableEq

/-- `_classify_document_type` result. -/
structure DocumentClassification where
  document_type : String
  confidence : ℚ
  all_scores : List (String × ℚ)
deriving DecidableEq

/-- One key topic (`_extract_key_topics`). -/
structure KeyTopic where
  topic : String
  relevance_score : ℚ
  keyword_matches : Nat
deriving DecidableEq

/-- The `text_analysis` sub-dictionary of `analyze_text`. -/
structure TextAnalysis where
  original_length : Nat
  processed_length : Nat
  word_count : Nat
  sentence_count : Nat
  language : String
  readability_score : ℚ
deriving DecidableEq

/-- The full `analyze_text` result dictionary. -/
structure AnalysisResult where
  text_analysis : TextAnalysis
  entities : Entities
  financial_metrics : FinancialMetrics
  business_insights : BusinessInsights
  market_analysis : MarketAnalysis
  team_information : TeamInformation
  risk_factors : List RiskFactor
  sentiment : Sentiment
  document_classification : DocumentClassification
  key_topics : List KeyTopic
  confidence_score : ℚ
deriving DecidableEq

/-! ## Pure sub-extractors of `nlp_processor.py` -/

/-- The six risk categories and their keyword lists
(`_identify_risk_factors`). -/
def risk_categories : List (String × List String) :=
  [("market", ["market risk", "competition", "market downturn", "demand risk"]),
   ("financial", ["cash flow", "funding", "burn rate", "profitability"]),
   ("operational", ["scalability", "operations", "supply chain", "execution"]),
   ("regulatory", ["regulation", "compliance", "legal", "policy"]),
   ("technology", ["technical risk", "security", "platform", "infrastructure"]),
   ("team", ["key person", "talent", "hiring", "retention"])]

/-- One risk-factor record as built inside `_identify_risk_factors`
(fixed severity `medium`, confidence 0.7, ±100-character context). -/
def mk_risk_factor (text : String) (cat kw : String) : RiskFactor :=
  let start := py_find (py_lower text) kw
  { category := cat
    keyword := kw
    context := py_strip (py_slice text (start - 100) (start + 100))
    severity := "medium"
    confidence := 0.7 }

/-- `NLPProcessor._identify_risk_factors`: scan the six category keyword
lists over the lowercased text, one record per keyword hit. -/
def identify_risk_factors (text : String) : List RiskFactor :=
  risk_categories.flatMap (fun p =>
    p.2.filterMap (fun kw =>
      if py_contains (py_lower text) kw then some (mk_risk_factor text p.1 kw)
      else none))

/-- Positive sentiment keywords of `_analyze_sentiment`. -/
def positive_words : List String :=
  ["growth", "success", "opportunity", "strong", "excellent", "innovative", "leading"]

/-- Negative sentiment keywords of `_analyze_sentiment`. -/
def negative_words : List String :=
  ["risk", "challenge", "problem", "decline", "loss", "difficult", "concern"]

/-- `NLPProcessor._analyze_sentiment`. -/
def analyze_sentiment (text : String) : Sentiment :=
  let text_lower := py_lower text
  let positive_count := positive_words.countP (fun w => py_contains text_lower w)
  let negative_count := negative_words.countP (fun w => py_contains text_lower w)
  let total_words := word_count text
  let positive_frac : ℚ := if total_words > 0 then (positive_count : ℚ) / total_words else 0
  let negative_frac : ℚ := if total_words > 0 then (negative_count : ℚ) / total_words else 0
  if positive_frac > negative_frac then
    { sentiment := "positive", confidence := min (positive_frac * 10) 1
      positive_indicators := positive_count, negative_indicators := negative_count
      positive_frac := positive_frac, negative_frac := negative_frac }
  else if negative_frac > positive_frac then
    { sentiment := "negative", confidence := min (negative_frac * 10) 1
      positive_indicators := positive_count, negative_indicators := negative_count
      positive_frac := positive_frac, negative_frac := negative_frac }
  else
    { sentiment := "neutral", confidence := 0.5
      positive_indicators := positive_count, negative_indicators := negative_count
      positive_frac := positive_frac, negative_frac := negative_frac }

/-- The six topic categories and keyword lists of `_extract_key_topics`. -/
def topic_keywords : List (String × List String) :=
  [("technology", ["ai", "machine learning", "blockchain", "iot", "cloud", "mobile", "web"]),
   ("business", ["revenue", "profit", "growth", "market", "customer", "sales"]),
   ("finance", ["funding", "investment", "valuation", "cash flow", "burn rate"]),
   ("product", ["product", "feature", "platform", "solution", "service"]),
   ("market", ["market", "industry", "sector", "competition", "opportunity"]),
   ("team", ["team", "founder", "employee", "talent", "experience"])]

/-- Stable descending insertion by `relevance_score` (one step).  A
stable sort is what Python `list.sort(key=..., reverse=True)` performs,
and any two stable sorts agree, so this models the source exactly. -/
def insert_by_relevance (x : KeyTopic) : List KeyTopic → List KeyTopic
  | [] => [x]
  | y :: ys =>
    if x.relevance_score < y.relevance_score then y :: insert_by_relevance x ys
    else x :: y :: ys

/-- Stable descending sort by `relevance_score`. -/
def sort_by_relevance (l : List KeyTopic) : List KeyTopic :=
  l.foldr insert_by_relevance []

/-- `NLPProcessor._extract_key_topics`: keyword-hit counts per topic,
relevance normalized by keyword-table size, top 5 by relevance. -/
def extract_key_topics (text : String) : List KeyTopic :=
  let text_lower := py_lower text
  let topics := topic_keywords.filterMap (fun p =>
    let c := p.2.countP (fun kw => py_contains text_lower kw)
    if c > 0 then
      some { topic := p.1, relevance_score := (c : ℚ) / p.2.length, keyword_matches := c }
    else none)
  (sort_by_relevance topics).take 5

/-- The five document types and keyword lists of
`_classify_document_type`. -/
def document_types : List (String × List String) :=
  [("pitch_deck", ["pitch", "deck", "presentation", "slide", "investment opportunity"]),
   ("business_plan", ["business plan", "executive summary", "strategy", "operations"]),
   ("financial_model", ["financial model", "projections", "forecast", "revenue model"]),
   ("market_analysis", ["market analysis", "market research", "competitive analysis"]),
   ("technical_document", ["technical", "architecture", "development", "api"])]

/-- `NLPProcessor._classify_document_type`: keyword-overlap score per
type, highest scoring type wins (first in declaration order on ties);
no hits at all gives `general` at confidence 0.5. -/
def classify_document_type (text : String) : DocumentClassification :=
  let text_lower := py_lower text
  let scores := document_types.filterMap (fun p =>
    let c := p.2.countP (fun kw => py_contains text_lower kw)
    if c > 0 then some (p.1, (c : ℚ) / p.2.length) else none)
  match pick_max scores with
  | some best => { document_type := best.1, confidence := best.2, all_scores := scores }
  | none => { document_type := "general", confidence := 0.5, all_scores := [] }

/-- Business-model categories of `_extract_business_insights`
(declaration order is the tie-break: first hit wins). -/
def business_models : List (String × List String) :=
  [("saas", ["saas", "software as a service", "subscription software"]),
   ("marketplace", ["marketplace", "platform", "two-sided market"]),
   ("e-commerce", ["e-commerce", "online store", "retail"]),
   ("fintech", ["fintech", "financial technology", "payments"]),
   ("healthtech", ["healthtech", "medical", "healthcare"]),
   ("edtech", ["edtech", "education", "learning platform"])]

/-- Revenue-model categories of `_extract_business_insights`. -/
def revenue_models : List (String × List String) :=
  [("subscription", ["subscription", "monthly fee", "recurring"]),
   ("transaction", ["transaction fee", "commission", "per transaction"]),
   ("freemium", ["freemium", "free tier", "premium features"]),
   ("advertising", ["advertising", "ads", "sponsored content"]),
   ("licensing", ["licensing", "license fee", "royalty"])]

/-- Target-market indicator keywords of `_extract_business_insights`. -/
def market_indicators : List String :=
  ["target market", "customer segment", "user base", "audience"]

/-- `NLPProcessor._extract_business_insights`: first matching business
and revenue model, a [-50,+200]-character context window per present
target-market indicator; `value_proposition` and
`competitive_advantages` are never filled by the source. -/
def extract_business_insights (text : String) : BusinessInsights :=
  let text_lower := py_lower text
  let bm := (business_models.find? (fun p =>
    p.2.any (fun kw => py_contains text_lower kw))).map (fun p => p.1)
  let rm := (revenue_models.find? (fun p =>
    p.2.any (fun kw => py_contains text_lower kw))).map (fun p => p.1)
  let tm := market_indicators.filterMap (fun ind =>
    if py_contains text_lower ind then
      let start := py_find text_lower ind
      some (py_strip (py_slice text (start - 50) (start + 200)))
    else none)
  { business_model := bm, revenue_model := rm, target_market := tm
    value_proposition := [], competitive_advantages := [] }

/-- `NLPProcessor._calculate_readability`. -/
def calculate_readability (text : String) : ℚ :=
  let words := words_of text.data
  let sentences := split_sentences text
  if sentences.length = 0 || words.length = 0 then 0
  else
    let avg_sentence_length : ℚ := (words.length : ℚ) / sentences.length
    let avg_word_length : ℚ := ((words.map List.length).sum : ℚ) / words.length
    min (max 0 (1 - avg_sentence_length / 20 - avg_word_length / 10)) 1

/-- `NLPProcessor._calculate_overall_confidence`: mean of up to three
saturation factors, or the 0.3 floor when none applies. -/
def calculate_overall_confidence (entities : Entities)
    (financial_metrics : FinancialMetrics) (business_insights : BusinessInsights) : ℚ :=
  let total_entities :=
    entities.organizations.length + entities.people.length + entities.locations.length +
    entities.money.length + entities.dates.length + entities.products.length +
    entities.technologies.length
  let total_financial :=
    financial_metrics.revenue_metrics.length + financial_metrics.funding_metrics.length +
    financial_metrics.profitability_metrics.length + financial_metrics.growth_metrics.length +
    financial_metrics.valuation_metrics.length
  let insights_found :=
    (if business_insights.business_model.isSome then 1 else 0) +
    (if business_insights.revenue_model.isSome then 1 else 0) +
    (if !business_insights.target_market.isEmpty then 1 else 0) +
    (if !business_insights.value_proposition.isEmpty then 1 else 0) +
    (if !business_insights.competitive_advantages.isEmpty then 1 else 0)
  let factors : List ℚ :=
    (if total_entities > 0 then [min ((total_entities : ℚ) / 10) 1] else []) ++
    (if total_financial > 0 then [min ((total_financial : ℚ) / 5) 1] else []) ++
    (if insights_found > 0 then [min ((insights_found : ℚ) / 3) 1] else [])
  if factors.isEmpty then 0.3 else factors.sum / factors.length

/-- `NLPProcessor._empty_analysis_result`. -/
def empty_analysis_result : AnalysisResult :=
  { text_analysis :=
      { original_length := 0, processed_length := 0, word_count := 0
        sentence_count := 0, language := "en", readability_score := 0 }
    entities :=
      { organizations := [], people := [], locations := [], money := []
        dates := [], products := [], technologies := [] }
    financial_metrics :=
      { revenue_metrics := [], funding_metrics := [], profitability_metrics := []
        growth_metrics := [], valuation_metrics := [] }
    business_insights :=
      { business_model := none, revenue_model := none, target_market := []
        value_proposition := [], competitive_advantages := [] }
    market_analysis :=
      { market_size := [], competitors := [], market_trends := [], opportunities := [] }
    team_information :=
      { founders := [], key_personnel := [], team_size := none, experience_highlights := [] }
    risk_factors := []
    sentiment :=
      { sentiment := "neutral", confidence := 0.5, positive_indicators := 0
        negative_indicators := 0, positive_frac := 0, negative_frac := 0 }
    document_classification :=
      { document_type := "general", confidence := 0.5, all_scores := [] }
    key_topics := []
    confidence_score := 0 }

/-- The externally-implemented sub-extractions of `analyze_text`: the
spaCy named-entity pass (`_extract_entities`) and the regex-template
extractors for financial metrics, market information and team
information.  Theorems quantify over this record, so they hold for every
behaviour of those components. -/
structure MinerOracle where
  entities_of : String → Entities
  financial_of : String → FinancialMetrics
  market_of : String → MarketAnalysis
  team_of : String → TeamInformation

/-- `NLPProcessor.analyze_text`.  The guard `not text or
len(text.strip()) == 0` is equivalent to every character being
whitespace.  The `document_type` argument of the source is unused by the
body and omitted. -/
def analyze_text (m : MinerOracle) (text : String) : AnalysisResult :=
  if text.data.all py_isspace then empty_analysis_result
  else
    let cleaned := preprocess_text text
    { text_analysis :=
        { original_length := text.length
          processed_length := cleaned.length
          word_count := word_count cleaned
          sentence_count := (split_sentences cleaned).length
          language := "en"
          readability_score := calculate_readability cleaned }
      entities := m.entities_of cleaned
      financial_metrics := m.financial_of cleaned
      business_insights := extract_business_insights cleaned
      market_analysis := m.market_of cleaned
      team_information := m.team_of cleaned
      risk_factors := identify_risk_factors cleaned
      sentiment := analyze_sentiment cleaned
      document_classification := classify_document_type cleaned
      key_topics := extract_key_topics cleaned
      confidence_score := calculate_overall_confidence (m.entities_of cleaned)
        (m.financial_of cleaned) (extract_business_insights cleaned) }

/-! ## Document processor (`document_processor.py`) -/

/-- `DocumentProcessor._calculate_text_quality`.  The empty guard `not
text or len(text.strip()) == 0` is again the all-whitespace test. -/
def calculate_text_quality (text : String) : ℚ :=
  if text.data.all py_isspace then 0
  else
    let char_count := text.length
    let wc := word_count text
    let readable_chars := text.data.countP (fun c => c.isAlpha || py_isspace c)
    let readable_frac : ℚ := if char_count > 0 then (readable_chars : ℚ) / char_count else 0
    let avg_word_length : ℚ := if wc > 0 then (char_count : ℚ) / wc else 0
    let word_length_score : ℚ := min (avg_word_length / 6) 1
    min (readable_frac * 0.6 + word_length_score * 0.4) 1

/-- What a format extractor hands back, restricted to the parts the rest
of the pipeline reads: the concatenated full text and the text-quality
score.  Extractor outputs carry only `extracted_content`,
`document_metadata` and `quality_metrics` keys — in particular they never
contain a `document_classification` key, which is encoded structurally
here. -/
structure ExtractorOutput where
  full_text : String
  text_quality_score : ℚ
deriving DecidableEq

/-- The MIME types registered in `DocumentProcessor.supported_formats`. -/
def supported_formats : List String :=
  ["application/pdf",
   "application/vnd.ms-powerpoint",
   "application/vnd.openxmlformats-officedocument.presentationml.presentation",
   "application/vnd.ms-excel",
   "application/vnd.openxmlformats-officedocument.spreadsheetml.sheet",
   "application/msword",
   "application/vnd.openxmlformats-officedocument.wordprocessingml.document"]

/-- `DocumentProcessor.process_document`: file-existence check, MIME
dispatch, invocation of the format parser (abstracted as the `parse`
argument since the parsers wrap external libraries), and the uniform
re-raise of any failure as `DocumentProcessingError("Processing failed:
...")`. -/
def process_document (file_exists : Bool) (file_path file_type : String)
    (parse : Except String ExtractorOutput) : Except String ExtractorOutput :=
  let body : Except String ExtractorOutput :=
    if !file_exists then Except.error ("File not found: " ++ file_path)
    else if !(supported_formats.contains file_type) then
      Except.error ("Unsupported file type: " ++ file_type)
    else parse
  match body with
  | Except.ok v => Except.ok v
  | Except.error e => Except.error ("Processing failed: " ++ e)

/-! ## Scoring engine (`scoring_engine.py`) -/

/-- The `document_content` dictionary as read by the scoring engine: it
accesses `document_content['extracted_content']['full_text']` (default
`""`) and `document_content['document_classification']['document_type']`
(default `""` when the key is absent). -/
structure DocumentContent where
  full_text : String
  document_classification : Option DocumentClassification
deriving DecidableEq

/-- View of an extractor output as scoring input; extraction results
never carry a `document_classification` key. -/
def to_document_content (e : ExtractorOutput) : DocumentContent :=
  { full_text := e.full_text, document_classification := none }

/-- The `document_content` seen by the scoring engine for a document
whose extraction produced nothing. -/
def empty_document_content : DocumentContent :=
  { full_text := "", document_classification := none }

/-- Python `round(x, 2)` on the rational model: round `100·x` to an
integer and divide back.  (Python rounds exact half-hundredths to even,
the model rounds them up; no stated property touches that case.) -/
def round2 (q : ℚ) : ℚ :=
  ((round (q * 100) : ℤ) : ℚ) / 100

/-- `ScoringEngine` dimension weights. -/
def weight_financial : ℚ := 0.30

/-- Market weight. -/
def weight_market : ℚ := 0.25

/-- Team weight. -/
def weight_team : ℚ := 0.25

/-- Product weight. -/
def weight_product : ℚ := 0.20

/-- The `{'k': 1000, 'm': 1000000, 'b': 1000000000}.get(unit, 1)`
multiplier lookup. -/
def unit_multiplier (unit : String) : ℚ :=
  if unit = "k" then 1000
  else if unit = "m" then 1000000
  else if unit = "b" then 1000000000
  else 1

/-- Funding amount converted to dollars inside
`_calculate_financial_score`. -/
def funding_actual_amount (mtr : FinMetric) : ℚ :=
  mtr.amount * unit_multiplier (py_lower mtr.unit)

/-- `ScoringEngine._calculate_financial_score`.  The sequential `score
+=` accumulation of the source is written as one sum; the per-loop
`break`s become `List.any` / `List.find?`.  The final bonus reads the
document classification from `document_content` (not from the
analysis), exactly as the source does. -/
def calculate_financial_score (nlp : AnalysisResult) (content : DocumentContent) : ℚ :=
  min (50
    + (if !nlp.financial_metrics.revenue_metrics.isEmpty then 15 else 0)
    + (if nlp.financial_metrics.revenue_metrics.any (fun mtr => mtr.amount > 1000000)
       then 10 else 0)
    + (if !nlp.financial_metrics.funding_metrics.isEmpty then 10 else 0)
    + (match nlp.financial_metrics.funding_metrics.find?
         (fun mtr => funding_actual_amount mtr ≥ 1000000) with
       | some mtr => if funding_actual_amount mtr ≥ 5000000 then 15 else 10
       | none => 0)
    + (if !nlp.financial_metrics.valuation_metrics.isEmpty then 10 else 0)
    + (if nlp.business_insights.revenue_model = some "subscription" ||
          nlp.business_insights.revenue_model = some "saas" then 15
       else if nlp.business_insights.revenue_model = some "transaction" ||
          nlp.business_insights.revenue_model = some "marketplace" then 10
       else 0)
    + (if py_contains (match content.document_classification with
                       | some dc => dc.document_type
                       | none => "") "financial_model" then 10 else 0)) 100

/-- Market value of one market-size mention: commas stripped, parsed as
float, unit multiplier applied; `none` when `float()` would raise. -/
def market_value_of (info : MarketSizeInfo) : Option ℚ :=
  (parse_decimal (String.mk (info.amount.data.filter (fun c => c ≠ ',')))).map
    (fun v => v * unit_multiplier (py_lower info.unit))

/-- Whether a market-size mention stops the size-tier loop (parses and
reaches the $100M tier). -/
def market_tier_hit (info : MarketSizeInfo) : Bool :=
  match market_value_of info with
  | some v => v ≥ 100000000
  | none => false

/-- `ScoringEngine._calculate_market_score`. -/
def calculate_market_score (nlp : AnalysisResult) : ℚ :=
  min (50
    + (if !nlp.market_analysis.market_size.isEmpty then 15 else 0)
    + (match nlp.market_analysis.market_size.find? market_tier_hit with
       | some info =>
         match market_value_of info with
         | some v => if v ≥ 10000000000 then 20 else if v ≥ 1000000000 then 15 else 10
         | none => 0
       | none => 0)
    + (if !nlp.market_analysis.competitors.isEmpty then
         if nlp.market_analysis.competitors.length ≤ 3 then 15
         else if nlp.market_analysis.competitors.length ≤ 6 then 10
         else 5
       else 0)
    + (if nlp.business_insights.business_model = some "saas" ||
          nlp.business_insights.business_model = some "marketplace" ||
          nlp.business_insights.business_model = some "fintech" then 10 else 0)
    + (if !nlp.business_insights.target_market.isEmpty then 10 else 0)
    + (if !nlp.market_analysis.market_trends.isEmpty then 10 else 0)
    + (if nlp.key_topics.any (fun t => t.topic = "technology" || t.topic = "ai" ||
          t.topic = "blockchain" || t.topic = "fintech" || t.topic = "healthtech")
       then 5 else 0)) 100

/-- Founder-experience keywords of `_calculate_team_score`. -/
def experience_keywords : List String :=
  ["experience", "previous", "former", "ex-"]

/-- Prestigious-company list of `_calculate_team_score`. -/
def prestigious_companies : List String :=
  ["google", "microsoft", "apple", "amazon", "facebook", "meta",
   "tesla", "uber", "airbnb", "stripe", "salesforce"]

/-- `ScoringEngine._calculate_team_score`.  `if team_size:` is Python
truthiness: `None` and `0` skip the tier block. -/
def calculate_team_score (nlp : AnalysisResult) : ℚ :=
  min (50
    + (if !nlp.team_information.founders.isEmpty then 15 else 0)
    + (if nlp.team_information.founders.length ≥ 2 then 10 else 0)
    + (if nlp.team_information.founders.any (fun f =>
          experience_keywords.any (fun kw => py_contains (py_lower f.context) kw))
       then 10 else 0)
    + (match nlp.team_information.team_size with
       | some n =>
         if n = 0 then 0
         else if 5 ≤ n ∧ n ≤ 20 then 15
         else if 2 ≤ n ∧ n ≤ 50 then 10
         else if n > 50 then 5
         else 0
       | none => 0)
    + (if !nlp.team_information.key_personnel.isEmpty then 10 else 0)
    + (if !nlp.team_information.experience_highlights.isEmpty then 15 else 0)
    + (if nlp.entities.organizations.any (fun org =>
          prestigious_companies.any (fun c => py_contains (py_lower org.text) c))
       then 10 else 0)) 100

/-- The priority-ordered development-stage indicator table of
`_calculate_product_score` (Python dict iteration order; first present
keyword wins). -/
def development_indicators : List (String × ℚ) :=
  [("mvp", 10), ("prototype", 8), ("beta", 12), ("launched", 15),
   ("customers", 15), ("users", 12), ("traction", 15)]

/-- `ScoringEngine._calculate_product_score`. -/
def calculate_product_score (nlp : AnalysisResult) (content : DocumentContent) : ℚ :=
  let full_text := py_lower content.full_text
  min (50
    + (if !nlp.business_insights.value_proposition.isEmpty then 15 else 0)
    + (if !nlp.business_insights.competitive_advantages.isEmpty then 15 else 0)
    + (match nlp.key_topics.filter (fun t => t.topic = "technology") with
       | t :: _ => t.relevance_score * 20
       | [] => 0)
    + (match development_indicators.find? (fun p => py_contains full_text p.1) with
       | some p => p.2
       | none => 0)
    + (if py_contains full_text "customer feedback" || py_contains full_text "user feedback" ||
          py_contains full_text "testimonial" then 10 else 0)
    + (if py_contains full_text "scalable" || py_contains full_text "scale" ||
          py_contains full_text "growth" || py_contains full_text "expand" then 10 else 0)) 100

/-- Severity-to-score table of `_assess_risk_factors`
(`{'low': 20, 'medium': 50, 'high': 80, 'critical': 95}`, default 50). -/
def severity_score (severity : String) : ℚ :=
  if severity = "low" then 20
  else if severity = "medium" then 50
  else if severity = "high" then 80
  else if severity = "critical" then 95
  else 50

/-- One entry of the `risk_factors` report list built by
`_assess_risk_factors`. -/
structure ReportedRisk where
  category : String
  description : String
  severity : String
  score : ℚ
deriving DecidableEq

/-- The `_assess_risk_factors` result dictionary. -/
structure RiskAssessment where
  market_risk : ℚ
  financial_risk : ℚ
  operational_risk : ℚ
  regulatory_risk : ℚ
  technology_risk : ℚ
  team_risk : ℚ
  overall_risk_score : ℚ
  risk_factors : List ReportedRisk
deriving DecidableEq

/-- Per-category risk score of `_assess_risk_factors`: severity scores
of the risks filed under `cat`, averaged and capped at 100 when present,
50 (the neutral prior) otherwise. -/
def category_risk (risks : List RiskFactor) (cat : String) : ℚ :=
  let scores := (risks.filter (fun r => r.category = cat)).map
    (fun r => severity_score r.severity)
  if scores.isEmpty then 50 else min (scores.sum / scores.length) 100

/-- `ScoringEngine._assess_risk_factors`. -/
def assess_risk_factors (risks : List RiskFactor) : RiskAssessment :=
  let mr := category_risk risks "market"
  let fr := category_risk risks "financial"
  let op := category_risk risks "operational"
  let rg := category_risk risks "regulatory"
  let tc := category_risk risks "technology"
  let tm := category_risk risks "team"
  { market_risk := mr, financial_risk := fr, operational_risk := op
    regulatory_risk := rg, technology_risk := tc, team_risk := tm
    overall_risk_score := (mr + fr + op + rg + tc + tm) / 6
    risk_factors := risks.map (fun r =>
      { category := r.category, description := r.context
        severity := r.severity, score := severity_score r.severity }) }

/-- The shared risk-adjustment factor: `1 - (risk_score / 100 * 0.3)`. -/
def risk_adjustment (risk_score : ℚ) : ℚ :=
  1 - risk_score / 100 * 0.3

/-- `ScoringEngine._calculate_confidence_interval`: margin
`(1 - confidence) * 20`, bounds clamped to `[0,100]` and rounded to two
decimals. -/
def calculate_confidence_interval (score confidence : ℚ) : ℚ × ℚ :=
  let margin := (1 - confidence) * 20
  (round2 (max 0 (score - margin)), round2 (min 100 (score + margin)))

/-- `ScoringEngine._generate_recommendation`: the threshold ladder over
`recommendation_thresholds = {strong_buy: 85, buy: 70, hold: 50}`. -/
def generate_recommendation (overall_score : ℚ) : String :=
  if overall_score ≥ 85 then "strong_buy"
  else if overall_score ≥ 70 then "buy"
  else if overall_score ≥ 50 then "hold"
  else "pass"

/-- `ScoreResult` (without the human-readable `reasoning` dictionary,
which no stated property mentions). -/
structure ScoreResult where
  financial_score : ℚ
  market_score : ℚ
  team_score : ℚ
  product_score : ℚ
  risk_score : ℚ
  overall_score : ℚ
  confidence_interval : ℚ × ℚ
  recommendation : String
deriving DecidableEq

/-- `ScoringEngine.calculate_investment_score`: dimension scores, risk
assessment, shared risk adjustment, weighted overall score, confidence
interval and recommendation (the latter two from the unrounded overall
score, as in the source). -/
def calculate_investment_score (nlp : AnalysisResult) (content : DocumentContent) : ScoreResult :=
  let financial_score := calculate_financial_score nlp content
  let market_score := calculate_market_score nlp
  let team_score := calculate_team_score nlp
  let product_score := calculate_product_score nlp content
  let risk := assess_risk_factors nlp.risk_factors
  let risk_score := risk.overall_risk_score
  let adj := risk_adjustment risk_score
  let adjusted_financial := financial_score * adj
  let adjusted_market := market_score * adj
  let adjusted_team := team_score * adj
  let adjusted_product := product_score * adj
  let overall_score :=
    adjusted_financial * weight_financial + adjusted_market * weight_market +
    adjusted_team * weight_team + adjusted_product * weight_product
  { financial_score := round2 adjusted_financial
    market_score := round2 adjusted_market
    team_score := round2 adjusted_team
    product_score := round2 adjusted_product
    risk_score := round2 risk_score
    overall_score := round2 overall_score
    confidence_interval := calculate_confidence_interval overall_score nlp.confidence_score
    recommendation := generate_recommendation overall_score }

/-! ## Document endpoints (`api/v1/endpoints/documents.py`) -/

/-- The columns of the `Document` row touched by processing and
reprocessing.  Timestamps are abstract instants (`Nat`); the JSON
columns hold the typed payloads; the three scalar quality columns are
stored as strings in the source (`str(...)`), modelled by their values. -/
structure DocumentRecord where
  processing_status : String
  processing_started_at : Option Nat
  processing_completed_at : Option Nat
  processing_error : Option String
  extracted_content : Option DocumentContent
  structured_data : Option AnalysisResult
  entities : Option Entities
  financial_data : Option FinancialMetrics
  confidence_score : Option ℚ
  text_quality : Option ℚ
  data_completeness : Option ℚ
deriving DecidableEq

/-- The `update(Document).values(...)` of `reprocess_document`
(documents.py:444-457): status back to `pending`, timestamps, error and
the four content/analysis columns cleared.  The source lists exactly
these eight columns — `confidence_score`, `text_quality` and
`data_completeness` are not among them. -/
def reset_for_reprocess (d : DocumentRecord) : DocumentRecord :=
  { d with
    processing_status := "pending"
    processing_started_at := none
    processing_completed_at := none
    processing_error := none
    extracted_content := none
    structured_data := none
    entities := none
    financial_data := none }

/-- `process_document_background`: mark processing, run extraction →
analysis → scoring, then either persist all derived fields under
`completed` or only the error message under `failed`.  `t0`/`t1` are the
start/completion instants, `parse` the external format parser outcome. -/
def process_document_background (doc : DocumentRecord) (file_path file_type : String)
    (file_exists : Bool) (parse : Except String ExtractorOutput)
    (m : MinerOracle) (t0 t1 : Nat) : DocumentRecord :=
  let doc := { doc with processing_status := "processing", processing_started_at := some t0 }
  match process_document file_exists file_path file_type parse with
  | Except.error e =>
    { doc with
      processing_status := "failed"
      processing_error := some e
      processing_completed_at := some t1 }
  | Except.ok ext =>
    let nlp := analyze_text m ext.full_text
    let score := calculate_investment_score nlp (to_document_content ext)
    { doc with
      processing_status := "completed"
      processing_completed_at := some t1
      extracted_content := some (to_document_content ext)
      structured_data := some nlp
      entities := some nlp.entities
      financial_data := some nlp.financial_metrics
      confidence_score := some nlp.confidence_score
      text_quality := some ext.text_quality_score
      data_completeness := some (score.confidence_interval.2 / 100) }

/-! ## Spec-side definitions and concrete instances used by the
verification -/

/-- The text-quality formula exactly as the specification states it:
`min(0.6·readability_ratio + 0.4·word_length_score, 1.0)` with
`readability_ratio = readable_chars / C` (0 if `C = 0`) and
`word_length_score = min((C/W)/6, 1.0)` (0 if `W = 0`) — with no
whitespace-only guard. -/
def claimed_text_quality (text : String) : ℚ :=
  let char_count := text.length
  let wc := word_count text
  let readable_chars := text.data.countP (fun c => c.isAlpha || py_isspace c)
  let readable_frac : ℚ := if char_count = 0 then 0 else (readable_chars : ℚ) / char_count
  let word_length_score : ℚ := if wc = 0 then 0 else min (((char_count : ℚ) / wc) / 6) 1
  min (0.6 * readable_frac + 0.4 * word_length_score) 1

/-- An oracle whose external components find nothing — the behaviour of
the source when the spaCy model is absent and no regex matches. -/
def trivial_oracle : MinerOracle :=
  { entities_of := fun _ => empty_analysis_result.entities
    financial_of := fun _ => empty_analysis_result.financial_metrics
    market_of := fun _ => empty_analysis_result.market_analysis
    team_of := fun _ => empty_analysis_result.team_information }

/-- An analysis that the classifier labels `financial_model` and that is
otherwise empty (used against claim C6). -/
def financial_model_analysis : AnalysisResult :=
  { empty_analysis_result with
    document_classification :=
      { document_type := "financial_model", confidence := 1/2
        all_scores := [("financial_model", 1/2)] } }

/-- An analysis carrying a key topic with a negative relevance score
(representable in the Python dicts, never produced by the analyzer);
used against claim C3. -/
def negative_topic_analysis : AnalysisResult :=
  { empty_analysis_result with
    key_topics := [{ topic := "technology", relevance_score := -10, keyword_matches := 0 }] }

/-- A completed document row holding persisted quality scalars, used
against claim C5. -/
def sample_completed_document : DocumentRecord :=
  { processing_status := "completed"
    processing_started_at := some 1
    processing_completed_at := some 2
    processing_error := none
    extracted_content := some empty_document_content
    structured_data := some empty_analysis_result
    entities := some empty_analysis_result.entities
    financial_data := some empty_analysis_result.financial_metrics
    confidence_score := some (4/5)
    text_quality := some (9/10)
    data_completeness := some (5/8) }

/-- A freshly uploaded document row: pending, nothing derived yet. -/
def fresh_document : DocumentRecord :=
  { processing_status := "pending"
    processing_started_at := none
    processing_completed_at := none
    processing_error := none
    extracted_content := none
    structured_data := none
    entities := none
    financial_data := none
    confidence_score := none
    text_quality := none
    data_completeness := none }

/-! ## Helper lemmas -/

theorem round2_mono {a b : ℚ} (h : a ≤ b) : round2 a ≤ round2 b := by
  unfold round2
  have hf : round (a * 100) ≤ round (b * 100) := by
    rw [round_eq, round_eq]
    exact Int.floor_le_floor (by linarith)
  have : ((round (a * 100) : ℤ) : ℚ) ≤ ((round (b * 100) : ℤ) : ℚ) := by exact_mod_cast hf
  linarith

theorem round2_int_mul (z : ℤ) : round2 ((z : ℚ) / 100) = (z : ℚ) / 100 := by
  unfold round2
  rw [div_mul_cancel₀ _ (by norm_num : (100 : ℚ) ≠ 0), round_intCast]

theorem round2_of_den_dvd {q : ℚ} (h : (q * 100).den = 1) : round2 q = q := by
  have hnum : ((q * 100).num : ℚ) = q * 100 := (Rat.den_eq_one_iff _).mp h
  unfold round2
  rw [show q * 100 = ((q * 100).num : ℚ) from hnum.symm, round_intCast]
  rw [hnum]
  field_simp

theorem round2_eq_self_of_int_mul (q : ℚ) (z : ℤ) (h : q * 100 = (z : ℚ)) : round2 q = q := by
  unfold round2
  rw [h, round_intCast, eq_comm, eq_div_iff (by norm_num : (100 : ℚ) ≠ 0), h]

theorem category_risk_all_medium {risks : List RiskFactor}
    (h : ∀ r ∈ risks, r.severity = "medium") (cat : String) :
    category_risk risks cat = 50 := by
  unfold category_risk
  set scores := (risks.filter (fun r => r.category = cat)).map
    (fun r => severity_score r.severity) with hscores
  have hall : ∀ x ∈ scores, x = (50 : ℚ) := by
    intro x hx
    rw [hscores] at hx
    obtain ⟨r, hr, hx⟩ := List.mem_map.mp hx
    have := h r (List.mem_of_mem_filter hr)
    rw [← hx, this]
    simp [severity_score]
  by_cases hempty : scores.isEmpty
  · simp [hempty]
  · have hlen : scores.length ≠ 0 := by
      intro h0
      exact hempty (List.isEmpty_iff.mpr (List.length_eq_zero.mp h0))
    have hsum : scores.sum = scores.length • (50 : ℚ) := List.sum_eq_card_nsmul scores 50 hall
    simp only [hempty, if_neg, Bool.false_eq_true, ite_false]
    rw [hsum, nsmul_eq_mul]
    have hne : (scores.length : ℚ) ≠ 0 := by exact_mod_cast hlen
    rw [mul_comm, mul_div_assoc, div_self hne, mul_one]
    norm_num

theorem assess_all_medium {risks : List RiskFactor}
    (h : ∀ r ∈ risks, r.severity = "medium") :
    (assess_risk_factors risks).market_risk = 50 ∧
    (assess_risk_factors risks).financial_risk = 50 ∧
    (assess_risk_factors risks).operational_risk = 50 ∧
    (assess_risk_factors risks).regulatory_risk = 50 ∧
    (assess_risk_factors risks).technology_risk = 50 ∧
    (assess_risk_factors risks).team_risk = 50 ∧
    (assess_risk_factors risks).overall_risk_score = 50 := by
  unfold assess_risk_factors
  simp only [category_risk_all_medium h]
  norm_num

theorem identify_risk_factors_severity {text : String} :
    ∀ r ∈ identify_risk_factors text, r.severity = "medium" := by
  intro r hr
  unfold identify_risk_factors at hr
  obtain ⟨p, _, hr⟩ := List.mem_flatMap.mp hr
  obtain ⟨kw, _, hr⟩ := List.mem_filterMap.mp hr
  by_cases hc : py_contains (py_lower text) kw
  · simp only [hc, if_true] at hr
    cases hr
    rfl
  · simp [hc] at hr

theorem analyze_text_risk_severity (m : MinerOracle) (text : String) :
    ∀ r ∈ (analyze_text m text).risk_factors, r.severity = "medium" := by
  unfold analyze_text
  by_cases hg : text.data.all py_isspace
  · simp [hg, empty_analysis_result]
  · simp only [hg, Bool.false_eq_true, ite_false]
    exact identify_risk_factors_severity

theorem mem_insert_by_relevance {x y : KeyTopic} {l : List KeyTopic}
    (h : y ∈ insert_by_relevance x l) : y = x ∨ y ∈ l := by
  induction l with
  | nil => simpa [insert_by_relevance] using h
  | cons a t ih =>
    unfold insert_by_relevance at h
    by_cases hc : x.relevance_score < a.relevance_score
    · simp only [hc, if_true] at h
      rcases List.mem_cons.mp h with h | h
      · exact Or.inr (h ▸ List.mem_cons_self a t)
      · rcases ih h with h | h
        · exact Or.inl h
        · exact Or.inr (List.mem_cons_of_mem a h)
    · simp only [hc, if_false] at h
      rcases List.mem_cons.mp h with h | h
      · exact Or.inl h
      · exact Or.inr h

theorem mem_sort_by_relevance {y : KeyTopic} {l : List KeyTopic}
    (h : y ∈ sort_by_relevance l) : y ∈ l := by
  induction l with
  | nil => simpa [sort_by_relevance] using h
  | cons a t ih =>
    unfold sort_by_relevance at h
    simp only [List.foldr_cons] at h
    rcases mem_insert_by_relevance h with h | h
    · exact h ▸ List.mem_cons_self a t
    · exact List.mem_cons_of_mem a (ih h)

theorem extract_key_topics_nonneg (text : String) :
    ∀ tp ∈ extract_key_topics text, 0 ≤ tp.relevance_score := by
  intro tp htp
  unfold extract_key_topics at htp
  have h1 : tp ∈ sort_by_relevance (topic_keywords.filterMap _) :=
    List.mem_of_mem_take htp
  have h2 := mem_sort_by_relevance h1
  obtain ⟨p, _, hp⟩ := List.mem_filterMap.mp h2
  by_cases hc : p.2.countP (fun kw => py_contains (py_lower text) kw) > 0
  · simp only [hc, if_true, Option.some_inj] at hp
    rw [← hp]
    positivity
  · simp [hc] at hp

theorem analyze_text_topics_nonneg (m : MinerOracle) (text : String) :
    ∀ tp ∈ (analyze_text m text).key_topics, 0 ≤ tp.relevance_score := by
  unfold analyze_text
  by_cases hg : text.data.all py_isspace
  · simp [hg, empty_analysis_result]
  · simp only [hg, Bool.false_eq_true, ite_false]
    exact extract_key_topics_nonneg _

theorem financial_score_bounds (nlp : AnalysisResult) (content : DocumentContent) :
    50 ≤ calculate_financial_score nlp content ∧
    calculate_financial_score nlp content ≤ 100 := by
  unfold calculate_financial_score
  refine ⟨le_min ?_ (by norm_num), min_le_right _ _⟩
  rcases hf : nlp.financial_metrics.funding_metrics.find?
      (fun mtr => funding_actual_amount mtr ≥ 1000000) with _ | mtr <;>
    simp only [hf] <;> split_ifs <;> norm_num

theorem market_score_bounds (nlp : AnalysisResult) :
    50 ≤ calculate_market_score nlp ∧ calculate_market_score nlp ≤ 100 := by
  unfold calculate_market_score
  refine ⟨le_min ?_ (by norm_num), min_le_right _ _⟩
  rcases hf : nlp.market_analysis.market_size.find? market_tier_hit with _ | info
  · simp only [hf]
    split_ifs <;> norm_num
  · simp only [hf]
    rcases hv : market_value_of info with _ | v <;> simp only [hv] <;>
      split_ifs <;> norm_num

theorem team_score_bounds (nlp : AnalysisResult) :
    50 ≤ calculate_team_score nlp ∧ calculate_team_score nlp ≤ 100 := by
  unfold calculate_team_score
  refine ⟨le_min ?_ (by norm_num), min_le_right _ _⟩
  rcases hs : nlp.team_information.team_size with _ | n <;>
    simp only [hs] <;> split_ifs <;> norm_num

theorem product_score_upper (nlp : AnalysisResult) (content : DocumentContent) :
    calculate_product_score nlp content ≤ 100 :=
  min_le_right _ _

theorem product_score_lower (nlp : AnalysisResult) (content : DocumentContent)
    (h : ∀ tp ∈ nlp.key_topics, 0 ≤ tp.relevance_score) :
    50 ≤ calculate_product_score nlp content := by
  unfold calculate_product_score
  refine le_min ?_ (by norm_num)
  rcases hfil : nlp.key_topics.filter (fun t => t.topic = "technology") with _ | ⟨t0, rest⟩ <;>
    rcases hd : development_indicators.find?
      (fun p => py_contains (py_lower content.full_text) p.1) with _ | p <;>
    simp only [hfil, hd]
  · split_ifs <;> norm_num
  · have hmem : p ∈ development_indicators := List.mem_of_find?_eq_some hd
    have hp : (0 : ℚ) ≤ p.2 := by fin_cases hmem <;> norm_num
    split_ifs <;> (ring_nf; linarith)
  · have ht0 : t0 ∈ nlp.key_topics :=
      List.mem_of_mem_filter (hfil ▸ List.mem_cons_self t0 rest)
    have hrel : (0 : ℚ) ≤ t0.relevance_score * 20 :=
      mul_nonneg (h t0 ht0) (by norm_num)
    split_ifs <;> (ring_nf; ring_nf at hrel; linarith)
  · have ht0 : t0 ∈ nlp.key_topics :=
      List.mem_of_mem_filter (hfil ▸ List.mem_cons_self t0 rest)
    have hrel : (0 : ℚ) ≤ t0.relevance_score * 20 :=
      mul_nonneg (h t0 ht0) (by norm_num)
    have hmem : p ∈ development_indicators := List.mem_of_find?_eq_some hd
    have hp : (0 : ℚ) ≤ p.2 := by fin_cases hmem <;> norm_num
    split_ifs <;> (ring_nf; ring_nf at hrel; linarith)

theorem strong_buy_iff (o : ℚ) : generate_recommendation o = "strong_buy" ↔ 85 ≤ o := by
  unfold generate_recommendation
  split_ifs with h1 h2 h3
  · simpa using h1
  · exact ⟨fun hc => absurd hc (by decide), fun h85 => absurd h85 h1⟩
  · exact ⟨fun hc => absurd hc (by decide), fun h85 => absurd h85 h1⟩
  · exact ⟨fun hc => absurd hc (by decide), fun h85 => absurd h85 h1⟩

/-- C1: the recommendation is the pure threshold ladder evaluated
high-to-low (≥85 strong_buy, ≥70 buy, ≥50 hold, else pass); at the
boundaries 85.0→strong_buy, 69.99→hold, 70.0→buy, 49.99→pass,
50.0→hold, while 84.99 falls in the buy band (the claimed 84.99→hold is
wrong, see the counterexample). -/
theorem recommendation_threshold_ladder :
    (∀ s : ℚ, 85 ≤ s → generate_recommendation s = "strong_buy") ∧
    (∀ s : ℚ, 70 ≤ s → s < 85 → generate_recommendation s = "buy") ∧
    (∀ s : ℚ, 50 ≤ s → s < 70 → generate_recommendation s = "hold") ∧
    (∀ s : ℚ, s < 50 → generate_recommendation s = "pass") ∧
    generate_recommendation 84.99 = "buy" ∧
    generate_recommendation 85 = "strong_buy" ∧
    generate_recommendation 69.99 = "hold" ∧
    generate_recommendation 70 = "buy" ∧
    generate_recommendation 49.99 = "pass" ∧
    generate_recommendation 50 = "hold" := by
  refine ⟨?_, ?_, ?_, ?_, ?_, ?_, ?_, ?_, ?_, ?_⟩
  · intro s hs
    unfold generate_recommendation
    rw [if_pos hs]
  · intro s hs hs85
    unfold generate_recommendation
    rw [if_neg (by linarith), if_pos hs]
  · intro s hs hs70
    unfold generate_recommendation
    rw [if_neg (by linarith), if_neg (by linarith), if_pos hs]
  · intro s hs
    unfold generate_recommendation
    rw [if_neg (by linarith), if_neg (by linarith), if_neg (by linarith)]
  · unfold generate_recommendation
    rw [if_neg (by norm_num), if_pos (by norm_num)]
  · unfold generate_recommendation
    rw [if_pos (by norm_num)]
  · unfold generate_recommendation
    rw [if_neg (by norm_num), if_neg (by norm_num), if_pos (by norm_num)]
  · unfold generate_recommendation
    rw [if_neg (by norm_num), if_pos (by norm_num)]
  · unfold generate_recommendation
    rw [if_neg (by norm_num), if_neg (by norm_num), if_neg (by norm_num)]
  · unfold generate_recommendation
    rw [if_neg (by norm_num), if_neg (by norm_num), if_pos (by norm_num)]

/-- C1 witness: the ladder theorem applied at points inside each band. -/
theorem recommendation_threshold_ladder_witness :
    generate_recommendation 90 = "strong_buy" ∧ generate_recommendation 75 = "buy" ∧
    generate_recommendation 60 = "hold" ∧ generate_recommendation 40 = "pass" :=
  ⟨recommendation_threshold_ladder.1 90 (by norm_num),
   recommendation_threshold_ladder.2.1 75 (by norm_num) (by norm_num),
   recommendation_threshold_ladder.2.2.1 60 (by norm_num) (by norm_num),
   recommendation_threshold_ladder.2.2.2.1 40 (by norm_num)⟩

/-- C1 counterexample: the claim asserts 84.99→hold, but the code gives
buy (84.99 ≥ 70 and the ladder is evaluated high-to-low). -/
theorem recommendation_849_not_hold :
    generate_recommendation 84.99 = "buy" ∧ generate_recommendation 84.99 ≠ "hold" := by
  constructor
  · unfold generate_recommendation
    rw [if_neg (by norm_num), if_pos (by norm_num)]
  · unfold generate_recommendation
    rw [if_neg (by norm_num), if_pos (by norm_num)]
    decide

theorem round2_zero : round2 0 = 0 :=
  round2_eq_self_of_int_mul 0 0 (by norm_num)

theorem round2_hundred : round2 100 = 100 :=
  round2_eq_self_of_int_mul 100 10000 (by norm_num)

/-- C4 (amended): the confidence interval equals the clamp formula
(rounded to two decimals, as stored by the source), is a subset of
[0,100], brackets the overall score, and is symmetric around the overall
score exactly when neither clamp binds and both endpoints are exact
two-decimal values; with a binding clamp symmetry fails (see the
counterexample). -/
theorem confidence_interval_props (s c : ℚ) (hs0 : 0 ≤ s) (hs1 : s ≤ 100)
    (hc0 : 0 ≤ c) (hc1 : c ≤ 1) :
    calculate_confidence_interval s c =
      (round2 (max 0 (s - (1 - c) * 20)), round2 (min 100 (s + (1 - c) * 20))) ∧
    0 ≤ round2 (max 0 (s - (1 - c) * 20)) ∧
    round2 (min 100 (s + (1 - c) * 20)) ≤ 100 ∧
    round2 (max 0 (s - (1 - c) * 20)) ≤ round2 s ∧
    round2 s ≤ round2 (min 100 (s + (1 - c) * 20)) ∧
    ((1 - c) * 20 ≤ s → s + (1 - c) * 20 ≤ 100 →
      (∃ zs : ℤ, s * 100 = (zs : ℚ)) → (∃ zm : ℤ, (1 - c) * 20 * 100 = (zm : ℚ)) →
      round2 (max 0 (s - (1 - c) * 20)) + round2 (min 100 (s + (1 - c) * 20)) = 2 * s) := by
  have hm0 : 0 ≤ (1 - c) * 20 := by nlinarith
  have hkey : calculate_confidence_interval s c =
      (round2 (max 0 (s - (1 - c) * 20)), round2 (min 100 (s + (1 - c) * 20))) := by
    simp only [calculate_confidence_interval]
  have hlo0 : 0 ≤ round2 (max 0 (s - (1 - c) * 20)) := by
    have h0 := round2_mono (le_max_left 0 (s - (1 - c) * 20))
    rwa [round2_zero] at h0
  have hhi100 : round2 (min 100 (s + (1 - c) * 20)) ≤ 100 := by
    have h0 := round2_mono (min_le_left 100 (s + (1 - c) * 20))
    rwa [round2_hundred] at h0
  refine ⟨hkey, hlo0, hhi100, ?_, ?_, ?_⟩
  · exact round2_mono (max_le hs0 (by linarith))
  · exact round2_mono (le_min hs1 (by linarith))
  · intro hms hsm hzs hzm
    obtain ⟨zs, hzs⟩ := hzs
    obtain ⟨zm, hzm⟩ := hzm
    rw [max_eq_right (by linarith), min_eq_right (by linarith)]
    rw [round2_eq_self_of_int_mul (s - (1 - c) * 20) (zs - zm) (by push_cast; linarith)]
    rw [round2_eq_self_of_int_mul (s + (1 - c) * 20) (zs + zm) (by push_cast; linarith)]
    ring

/-- C4 witness: the interval properties at overall 50, confidence 1/2
(margin 10, no clamp binds, endpoints exact): interval (40, 60). -/
theorem confidence_interval_props_witness :
    calculate_confidence_interval 50 (1/2) =
      (round2 (max 0 (50 - (1 - 1/2) * 20)), round2 (min 100 (50 + (1 - 1/2) * 20))) ∧
    round2 (max 0 ((50 : ℚ) - (1 - 1/2) * 20)) + round2 (min 100 ((50 : ℚ) + (1 - 1/2) * 20))
      = 2 * 50 := by
  obtain ⟨h1, _, _, _, _, h6⟩ :=
    confidence_interval_props 50 (1/2) (by norm_num) (by norm_num) (by norm_num) (by norm_num)
  exact ⟨h1, h6 (by norm_num) (by norm_num) ⟨5000, by norm_num⟩ ⟨1000, by norm_num⟩⟩

/-- C4 counterexample: at overall 5 and confidence 0 the interval is
(0, 25): the lower clamp binds and the interval is not symmetric around
the overall score (5 − 0 ≠ 25 − 5). -/
theorem confidence_interval_not_symmetric :
    calculate_confidence_interval 5 0 = (0, 25) ∧
    (5 : ℚ) - (calculate_confidence_interval 5 0).1 ≠
      (calculate_confidence_interval 5 0).2 - 5 := by
  have e1 : (5 : ℚ) - (1 - 0) * 20 = -15 := by norm_num
  have e2 : (5 : ℚ) + (1 - 0) * 20 = 25 := by norm_num
  have h : calculate_confidence_interval 5 0 = (0, 25) := by
    simp only [calculate_confidence_interval, e1, e2]
    rw [show (0 : ℚ) ⊔ (-15) = 0 from max_eq_left (by norm_num),
        show (100 : ℚ) ⊓ 25 = 25 from min_eq_right (by norm_num),
        round2_zero, round2_eq_self_of_int_mul 25 2500 (by norm_num)]
  refine ⟨h, ?_⟩
  rw [h]
  norm_num

/-- C5 (amended): reprocessing resets status to pending and clears
timestamps, error, extracted content, structured analysis, entities and
financial data (to constants independent of the prior state, so nothing
is read or merged), but the persisted confidence_score, text_quality and
data_completeness scalars are left untouched. -/
theorem reprocess_reset_fields (d : DocumentRecord) :
    (reset_for_reprocess d).processing_status = "pending" ∧
    (reset_for_reprocess d).processing_started_at = none ∧
    (reset_for_reprocess d).processing_completed_at = none ∧
    (reset_for_reprocess d).processing_error = none ∧
    (reset_for_reprocess d).extracted_content = none ∧
    (reset_for_reprocess d).structured_data = none ∧
    (reset_for_reprocess d).entities = none ∧
    (reset_for_reprocess d).financial_data = none ∧
    (reset_for_reprocess d).confidence_score = d.confidence_score ∧
    (reset_for_reprocess d).text_quality = d.text_quality ∧
    (reset_for_reprocess d).data_completeness = d.data_completeness :=
  ⟨rfl, rfl, rfl, rfl, rfl, rfl, rfl, rfl, rfl, rfl, rfl⟩

/-- C5 counterexample: on a completed document the reset leaves the
persisted confidence_score, text_quality and data_completeness set, so
not all derived fields are reset to unset. -/
theorem reprocess_keeps_quality_scalars :
    (reset_for_reprocess sample_completed_document).confidence_score = some (4/5) ∧
    (reset_for_reprocess sample_completed_document).confidence_score ≠ none ∧
    (reset_for_reprocess sample_completed_document).text_quality = some (9/10) ∧
    (reset_for_reprocess sample_completed_document).data_completeness = some (5/8) :=
  ⟨rfl, Option.some_ne_none _, rfl, rfl⟩

/-- C3 (amended): the financial, market and team scores always lie in
[50,100] ⊆ [0,100]; the product score is at most 100 always and at least
50 whenever every key-topic relevance score is nonnegative (which holds
for every analyzer-produced analysis).  With a hand-crafted negative
relevance the product score can leave [0,100] (see the counterexample). -/
theorem dimension_scores_in_range :
    (∀ (nlp : AnalysisResult) (content : DocumentContent),
      50 ≤ calculate_financial_score nlp content ∧
      calculate_financial_score nlp content ≤ 100) ∧
    (∀ nlp : AnalysisResult,
      50 ≤ calculate_market_score nlp ∧ calculate_market_score nlp ≤ 100) ∧
    (∀ nlp : AnalysisResult,
      50 ≤ calculate_team_score nlp ∧ calculate_team_score nlp ≤ 100) ∧
    (∀ (nlp : AnalysisResult) (content : DocumentContent),
      calculate_product_score nlp content ≤ 100) ∧
    (∀ (nlp : AnalysisResult) (content : DocumentContent),
      (∀ tp ∈ nlp.key_topics, 0 ≤ tp.relevance_score) →
      50 ≤ calculate_product_score nlp content) :=
  ⟨financial_score_bounds, market_score_bounds, team_score_bounds,
   product_score_upper, product_score_lower⟩

/-- C3 witness: the range properties at the all-empty inputs, with the
relevance-nonnegativity hypothesis discharged (no key topics). -/
theorem dimension_scores_in_range_witness :
    50 ≤ calculate_financial_score empty_analysis_result empty_document_content ∧
    50 ≤ calculate_product_score empty_analysis_result empty_document_content :=
  ⟨(dimension_scores_in_range.1 empty_analysis_result empty_document_content).1,
   dimension_scores_in_range.2.2.2.2 empty_analysis_result empty_document_content
     (by intro tp htp; simp [empty_analysis_result] at htp)⟩

/-- C9: every risk factor the analyzer emits has severity medium, so on
any analyzer output the six category risk scores and the overall risk
score are exactly 50 and the shared risk adjustment is exactly 0.85. -/
theorem analyzer_risk_all_fifty (m : MinerOracle) (text : String) :
    (∀ r ∈ (analyze_text m text).risk_factors, r.severity = "medium") ∧
    (assess_risk_factors (analyze_text m text).risk_factors).market_risk = 50 ∧
    (assess_risk_factors (analyze_text m text).risk_factors).financial_risk = 50 ∧
    (assess_risk_factors (analyze_text m text).risk_factors).operational_risk = 50 ∧
    (assess_risk_factors (analyze_text m text).risk_factors).regulatory_risk = 50 ∧
    (assess_risk_factors (analyze_text m text).risk_factors).technology_risk = 50 ∧
    (assess_risk_factors (analyze_text m text).risk_factors).team_risk = 50 ∧
    (assess_risk_factors (analyze_text m text).risk_factors).overall_risk_score = 50 ∧
    risk_adjustment
      (assess_risk_factors (analyze_text m text).risk_factors).overall_risk_score = 0.85 := by
  have hsev := analyze_text_risk_severity m text
  obtain ⟨h1, h2, h3, h4, h5, h6, h7⟩ := assess_all_medium hsev
  refine ⟨hsev, h1, h2, h3, h4, h5, h6, h7, ?_⟩
  rw [h7]
  unfold risk_adjustment
  norm_num

theorem text_quality_bounds (t : String) :
    0 ≤ calculate_text_quality t ∧ calculate_text_quality t ≤ 1 := by
  unfold calculate_text_quality
  by_cases hg : t.data.all py_isspace
  · simp [hg]
  · simp only [hg, Bool.false_eq_true, if_false]
    constructor
    · have hr : (0 : ℚ) ≤
          (if t.length > 0 then
            ((t.data.countP (fun c => c.isAlpha || py_isspace c) : ℚ)) / t.length else 0) := by
        split_ifs <;> positivity
      have hw : (0 : ℚ) ≤
          min ((if word_count t > 0 then ((t.length : ℚ)) / word_count t else 0) / 6) 1 := by
        refine le_min ?_ (by norm_num)
        split_ifs <;> positivity
      refine le_min ?_ (by norm_num)
      nlinarith
    · exact min_le_right _ _

theorem text_quality_formula_agree (t : String) (h : t.data.all py_isspace = false) :
    calculate_text_quality t = claimed_text_quality t := by
  unfold calculate_text_quality claimed_text_quality
  simp only [h, Bool.false_eq_true, if_false]
  have hC : t.length ≠ 0 := by
    intro h0
    have hdata : t.data = [] := List.length_eq_zero.mp h0
    rw [hdata] at h
    simp at h
  rw [if_pos (Nat.pos_of_ne_zero hC), if_neg hC]
  rcases Nat.eq_zero_or_pos (word_count t) with hw | hw
  · rw [if_neg (by omega : ¬ word_count t > 0), if_pos hw]
    rw [show ((0 : ℚ) / 6 ⊓ 1) = 0 from by rw [zero_div]; exact min_eq_left (by norm_num)]
    congr 1
    ring
  · rw [if_pos hw, if_neg (by omega : ¬ word_count t = 0)]
    congr 1
    ring

/-- C7 (amended): the text-quality score always lies in [0,1], is 0 for
empty and for whitespace-only text (the guard), and equals the claimed
formula min(0.6·readability_ratio + 0.4·word_length_score, 1) for every
text containing at least one non-whitespace character.  On
whitespace-only text the formula and the code disagree (see the
counterexample). -/
theorem text_quality_props :
    (∀ t : String, 0 ≤ calculate_text_quality t ∧ calculate_text_quality t ≤ 1) ∧
    calculate_text_quality "" = 0 ∧
    (∀ t : String, t.data.all py_isspace = true → calculate_text_quality t = 0) ∧
    (∀ t : String, t.data.all py_isspace = false →
      calculate_text_quality t = claimed_text_quality t) := by
  refine ⟨text_quality_bounds, ?_, ?_, text_quality_formula_agree⟩
  · unfold calculate_text_quality
    rw [if_pos (by decide)]
  · intro t ht
    unfold calculate_text_quality
    rw [if_pos ht]

/-- C7 witness: the quality properties applied at a whitespace-only and
at a letter-bearing string. -/
theorem text_quality_props_witness :
    calculate_text_quality " " = 0 ∧
    calculate_text_quality "ab" = claimed_text_quality "ab" :=
  ⟨text_quality_props.2.2.1 " " (by decide),
   text_quality_props.2.2.2 "ab" (by decide)⟩

/-- C7 counterexample: for the whitespace-only text consisting of one
space the code returns 0 via the guard, while the claimed formula gives
0.6·1 + 0.4·0 = 3/5, so the claimed equality fails there. -/
theorem text_quality_whitespace_mismatch :
    calculate_text_quality " " = 0 ∧ claimed_text_quality " " = 3/5 ∧
    calculate_text_quality " " ≠ claimed_text_quality " " := by
  have h0 : calculate_text_quality " " = 0 := by
    unfold calculate_text_quality
    rw [if_pos (by decide)]
  have h1 : (" " : String).length = 1 := by decide
  have h2 : word_count " " = 0 := by decide
  have h3 : (" " : String).data.countP (fun c => c.isAlpha || py_isspace c) = 1 := by decide
  have hc : claimed_text_quality " " = 3/5 := by
    unfold claimed_text_quality
    rw [h1, h2, h3]
    norm_num
  exact ⟨h0, hc, by rw [h0, hc]; norm_num⟩

/-- C8: for a MIME type with no registered extractor the coordinator
fails with the wrapped unsupported-file-type error, no extracted content
is produced (the document's content fields are untouched), and the
orchestrator sets the terminal status to failed with the error message
attached. -/
theorem unsupported_mime_fails (file_type : String)
    (h : file_type ∉ supported_formats) :
    ∀ (file_path : String) (parse : Except String ExtractorOutput)
      (doc : DocumentRecord) (m : MinerOracle) (t0 t1 : Nat),
    process_document true file_path file_type parse =
      Except.error ("Processing failed: Unsupported file type: " ++ file_type) ∧
    (process_document_background doc file_path file_type true parse m t0 t1).processing_status
      = "failed" ∧
    (process_document_background doc file_path file_type true parse m t0 t1).processing_error
      = some ("Processing failed: Unsupported file type: " ++ file_type) ∧
    (process_document_background doc file_path file_type true parse m t0 t1).extracted_content
      = doc.extracted_content ∧
    (process_document_background doc file_path file_type true parse m t0 t1).structured_data
      = doc.structured_data := by
  intro file_path parse doc m t0 t1
  have hpd : process_document true file_path file_type parse =
      Except.error ("Processing failed: Unsupported file type: " ++ file_type) := by
    unfold process_document
    simp [h]
    rw [← String.append_assoc]
    congr 1
  refine ⟨hpd, ?_, ?_, ?_, ?_⟩ <;>
    · unfold process_document_background
      rw [hpd]

/-- C8 witness: the failure contract at the concrete unregistered MIME
type text/plain on a fresh document. -/
theorem unsupported_mime_fails_witness :
    (process_document_background fresh_document "f.txt" "text/plain" true
      (Except.ok { full_text := "", text_quality_score := 0 }) trivial_oracle 0 1
      ).processing_status = "failed" ∧
    (process_document_background fresh_document "f.txt" "text/plain" true
      (Except.ok { full_text := "", text_quality_score := 0 }) trivial_oracle 0 1
      ).processing_error = some "Processing failed: Unsupported file type: text/plain" ∧
    (process_document_background fresh_document "f.txt" "text/plain" true
      (Except.ok { full_text := "", text_quality_score := 0 }) trivial_oracle 0 1
      ).extracted_content = none := by
  obtain ⟨_, h2, h3, h4, _⟩ :=
    unsupported_mime_fails "text/plain" (by decide) "f.txt"
      (Except.ok { full_text := "", text_quality_score := 0 }) fresh_document
      trivial_oracle 0 1
  exact ⟨h2, h3, h4⟩

/-- C6 (code bug): an analysis whose document classification is
financial_model (reachable: the classifier labels the text
"financial model projections" that way) does NOT receive the +10
financial-model bonus, because `_calculate_financial_score` reads the
classification from the extraction-content argument — which extractor
outputs never contain — instead of from the analysis; the bonus fires
only when the content argument itself carries a classification, which
never happens in the pipeline. -/
theorem financial_model_bonus_misread :
    (classify_document_type "financial model projections").document_type
      = "financial_model" ∧
    (∀ e : ExtractorOutput, (to_document_content e).document_classification = none) ∧
    calculate_financial_score financial_model_analysis empty_document_content = 50 ∧
    calculate_financial_score empty_analysis_result
      { full_text := "",
        document_classification := some financial_model_analysis.document_classification }
      = 60 := by
  refine ⟨by decide, fun e => rfl, ?_, ?_⟩
  · have h : calculate_financial_score financial_model_analysis empty_document_content =
        min (50 + 0 + 0 + 0 + 0 + 0 + 0 + 0 : ℚ) 100 := rfl
    rw [h, show (50 + 0 + 0 + 0 + 0 + 0 + 0 + 0 : ℚ) = 50 by norm_num]
    exact min_eq_left (by norm_num)
  · have h : calculate_financial_score empty_analysis_result
        { full_text := "",
          document_classification := some financial_model_analysis.document_classification } =
        min (50 + 0 + 0 + 0 + 0 + 0 + 0 + 10 : ℚ) 100 := rfl
    rw [h, show (50 + 0 + 0 + 0 + 0 + 0 + 0 + 10 : ℚ) = 60 by norm_num]
    exact min_eq_left (by norm_num)

theorem investment_score_unfold (nlp : AnalysisResult) (content : DocumentContent) :
    (calculate_investment_score nlp content).financial_score =
      round2 (calculate_financial_score nlp content *
        risk_adjustment (assess_risk_factors nlp.risk_factors).overall_risk_score) ∧
    (calculate_investment_score nlp content).market_score =
      round2 (calculate_market_score nlp *
        risk_adjustment (assess_risk_factors nlp.risk_factors).overall_risk_score) ∧
    (calculate_investment_score nlp content).team_score =
      round2 (calculate_team_score nlp *
        risk_adjustment (assess_risk_factors nlp.risk_factors).overall_risk_score) ∧
    (calculate_investment_score nlp content).product_score =
      round2 (calculate_product_score nlp content *
        risk_adjustment (assess_risk_factors nlp.risk_factors).overall_risk_score) ∧
    (calculate_investment_score nlp content).risk_score =
      round2 (assess_risk_factors nlp.risk_factors).overall_risk_score ∧
    (calculate_investment_score nlp content).overall_score =
      round2 (calculate_financial_score nlp content *
          risk_adjustment (assess_risk_factors nlp.risk_factors).overall_risk_score *
          weight_financial +
        calculate_market_score nlp *
          risk_adjustment (assess_risk_factors nlp.risk_factors).overall_risk_score *
          weight_market +
        calculate_team_score nlp *
          risk_adjustment (assess_risk_factors nlp.risk_factors).overall_risk_score *
          weight_team +
        calculate_product_score nlp content *
          risk_adjustment (assess_risk_factors nlp.risk_factors).overall_risk_score *
          weight_product) ∧
    (calculate_investment_score nlp content).recommendation =
      generate_recommendation (calculate_financial_score nlp content *
          risk_adjustment (assess_risk_factors nlp.risk_factors).overall_risk_score *
          weight_financial +
        calculate_market_score nlp *
          risk_adjustment (assess_risk_factors nlp.risk_factors).overall_risk_score *
          weight_market +
        calculate_team_score nlp *
          risk_adjustment (assess_risk_factors nlp.risk_factors).overall_risk_score *
          weight_team +
        calculate_product_score nlp content *
          risk_adjustment (assess_risk_factors nlp.risk_factors).overall_risk_score *
          weight_product) :=
  ⟨rfl, rfl, rfl, rfl, rfl, rfl, rfl⟩

theorem empty_financial_score :
    calculate_financial_score empty_analysis_result empty_document_content = 50 := by
  have h : calculate_financial_score empty_analysis_result empty_document_content =
      min (50 + 0 + 0 + 0 + 0 + 0 + 0 + 0 : ℚ) 100 := rfl
  rw [h, show (50 + 0 + 0 + 0 + 0 + 0 + 0 + 0 : ℚ) = 50 by norm_num]
  exact min_eq_left (by norm_num)

theorem empty_market_score : calculate_market_score empty_analysis_result = 50 := by
  have h : calculate_market_score empty_analysis_result =
      min (50 + 0 + 0 + 0 + 0 + 0 + 0 + 0 : ℚ) 100 := rfl
  rw [h, show (50 + 0 + 0 + 0 + 0 + 0 + 0 + 0 : ℚ) = 50 by norm_num]
  exact min_eq_left (by norm_num)

theorem empty_team_score : calculate_team_score empty_analysis_result = 50 := by
  have h : calculate_team_score empty_analysis_result =
      min (50 + 0 + 0 + 0 + 0 + 0 + 0 + 0 : ℚ) 100 := rfl
  rw [h, show (50 + 0 + 0 + 0 + 0 + 0 + 0 + 0 : ℚ) = 50 by norm_num]
  exact min_eq_left (by norm_num)

theorem empty_product_score :
    calculate_product_score empty_analysis_result empty_document_content = 50 := by
  have h : calculate_product_score empty_analysis_result empty_document_content =
      min (50 + 0 + 0 + 0 + 0 + 0 + 0 : ℚ) 100 := rfl
  rw [h, show (50 + 0 + 0 + 0 + 0 + 0 + 0 : ℚ) = 50 by norm_num]
  exact min_eq_left (by norm_num)

theorem empty_risk_fifty :
    (assess_risk_factors empty_analysis_result.risk_factors).overall_risk_score = 50 := by
  have h : (assess_risk_factors empty_analysis_result.risk_factors).overall_risk_score =
      (50 + 50 + 50 + 50 + 50 + 50 : ℚ) / 6 := rfl
  rw [h]
  norm_num

theorem adjustment_at_fifty : risk_adjustment 50 = 0.85 := by
  unfold risk_adjustment
  norm_num

/-- C2: empty (or whitespace-only) input makes the analyzer return the
canonical empty result without failing — all containers empty, sentiment
neutral at confidence 0.5, confidence_score 0 — and scoring that result
with empty extracted content gives risk_score 50, risk adjustment 0.85,
all four dimension scores 42.5, overall_score 42.5, recommendation
pass. -/
theorem empty_input_scenario :
    (∀ (m : MinerOracle) (t : String), t.data.all py_isspace = true →
      analyze_text m t = empty_analysis_result) ∧
    empty_analysis_result.sentiment.sentiment = "neutral" ∧
    empty_analysis_result.sentiment.confidence = 0.5 ∧
    empty_analysis_result.confidence_score = 0 ∧
    empty_analysis_result.risk_factors = [] ∧
    empty_analysis_result.key_topics = [] ∧
    empty_analysis_result.entities.organizations = [] ∧
    empty_analysis_result.financial_metrics.revenue_metrics = [] ∧
    (calculate_investment_score empty_analysis_result empty_document_content).risk_score = 50 ∧
    risk_adjustment
      (assess_risk_factors empty_analysis_result.risk_factors).overall_risk_score = 0.85 ∧
    (calculate_investment_score empty_analysis_result empty_document_content).financial_score
      = 42.5 ∧
    (calculate_investment_score empty_analysis_result empty_document_content).market_score
      = 42.5 ∧
    (calculate_investment_score empty_analysis_result empty_document_content).team_score
      = 42.5 ∧
    (calculate_investment_score empty_analysis_result empty_document_content).product_score
      = 42.5 ∧
    (calculate_investment_score empty_analysis_result empty_document_content).overall_score
      = 42.5 ∧
    (calculate_investment_score empty_analysis_result empty_document_content).recommendation
      = "pass" := by
  obtain ⟨hf, hm, ht, hp, hr, ho, hrec⟩ :=
    investment_score_unfold empty_analysis_result empty_document_content
  have hadj : risk_adjustment
      (assess_risk_factors empty_analysis_result.risk_factors).overall_risk_score = 0.85 := by
    rw [empty_risk_fifty, adjustment_at_fifty]
  have hdim : ∀ d : ℚ, d = 50 →
      round2 (d * risk_adjustment
        (assess_risk_factors empty_analysis_result.risk_factors).overall_risk_score) = 42.5 := by
    intro d hd
    rw [hd, hadj, show (50 : ℚ) * 0.85 = 42.5 by norm_num]
    exact round2_eq_self_of_int_mul 42.5 4250 (by norm_num)
  have hoverall : calculate_financial_score empty_analysis_result empty_document_content *
      risk_adjustment (assess_risk_factors empty_analysis_result.risk_factors).overall_risk_score *
      weight_financial +
      calculate_market_score empty_analysis_result *
      risk_adjustment (assess_risk_factors empty_analysis_result.risk_factors).overall_risk_score *
      weight_market +
      calculate_team_score empty_analysis_result *
      risk_adjustment (assess_risk_factors empty_analysis_result.risk_factors).overall_risk_score *
      weight_team +
      calculate_product_score empty_analysis_result empty_document_content *
      risk_adjustment (assess_risk_factors empty_analysis_result.risk_factors).overall_risk_score *
      weight_product = 42.5 := by
    rw [empty_financial_score, empty_market_score, empty_team_score, empty_product_score, hadj]
    unfold weight_financial weight_market weight_team weight_product
    norm_num
  refine ⟨?_, rfl, rfl, rfl, rfl, rfl, rfl, rfl, ?_, hadj, ?_, ?_, ?_, ?_, ?_, ?_⟩
  · intro m t hts
    unfold analyze_text
    rw [if_pos hts]
  · rw [hr, empty_risk_fifty]
    exact round2_eq_self_of_int_mul 50 5000 (by norm_num)
  · rw [hf, hdim _ empty_financial_score]
  · rw [hm, hdim _ empty_market_score]
  · rw [ht, hdim _ empty_team_score]
  · rw [hp, hdim _ empty_product_score]
  · rw [ho, hoverall]
    exact round2_eq_self_of_int_mul 42.5 4250 (by norm_num)
  · rw [hrec, hoverall]
    unfold generate_recommendation
    rw [if_neg (by norm_num), if_neg (by norm_num), if_neg (by norm_num)]

/-- C2 witness: the analyzer equality applied at the concrete empty
string. -/
theorem empty_input_scenario_witness :
    analyze_text trivial_oracle "" = empty_analysis_result :=
  empty_input_scenario.1 trivial_oracle "" (by decide)

theorem weighted_sum_range {f mk tm p : ℚ}
    (hf1 : 50 ≤ f) (hf2 : f ≤ 100) (hm1 : 50 ≤ mk) (hm2 : mk ≤ 100)
    (ht1 : 50 ≤ tm) (ht2 : tm ≤ 100) (hp1 : 50 ≤ p) (hp2 : p ≤ 100) :
    42.5 ≤ f * 0.85 * 0.30 + mk * 0.85 * 0.25 + tm * 0.85 * 0.25 + p * 0.85 * 0.20 ∧
    f * 0.85 * 0.30 + mk * 0.85 * 0.25 + tm * 0.85 * 0.25 + p * 0.85 * 0.20 ≤ 85 := by
  constructor <;> nlinarith

theorem weighted_sum_saturates {f mk tm p : ℚ}
    (hf2 : f ≤ 100) (hm2 : mk ≤ 100) (ht2 : tm ≤ 100) (hp2 : p ≤ 100)
    (heq : f * 0.85 * 0.30 + mk * 0.85 * 0.25 + tm * 0.85 * 0.25 + p * 0.85 * 0.20 = 85) :
    f = 100 ∧ mk = 100 ∧ tm = 100 ∧ p = 100 := by
  refine ⟨?_, ?_, ?_, ?_⟩ <;> nlinarith

/-- C10: on any analyzer output (any oracle, any text) and any extracted
content, the stored overall score lies in [42.5, 85], and the
recommendation is strong_buy exactly when all four raw dimension scores
are 100 (the upper boundary). -/
theorem analyzer_overall_score_range (m : MinerOracle) (t : String)
    (content : DocumentContent) :
    42.5 ≤ (calculate_investment_score (analyze_text m t) content).overall_score ∧
    (calculate_investment_score (analyze_text m t) content).overall_score ≤ 85 ∧
    ((calculate_investment_score (analyze_text m t) content).recommendation = "strong_buy" ↔
      (calculate_financial_score (analyze_text m t) content = 100 ∧
       calculate_market_score (analyze_text m t) = 100 ∧
       calculate_team_score (analyze_text m t) = 100 ∧
       calculate_product_score (analyze_text m t) content = 100)) := by
  obtain ⟨_, _, _, _, _, ho, hrec⟩ := investment_score_unfold (analyze_text m t) content
  have hrisk :
      (assess_risk_factors (analyze_text m t).risk_factors).overall_risk_score = 50 :=
    (assess_all_medium (analyze_text_risk_severity m t)).2.2.2.2.2.2
  have hadj : risk_adjustment
      (assess_risk_factors (analyze_text m t).risk_factors).overall_risk_score = 0.85 := by
    rw [hrisk, adjustment_at_fifty]
  have hfb := financial_score_bounds (analyze_text m t) content
  have hmb := market_score_bounds (analyze_text m t)
  have htb := team_score_bounds (analyze_text m t)
  have hpu := product_score_upper (analyze_text m t) content
  have hpl := product_score_lower (analyze_text m t) content (analyze_text_topics_nonneg m t)
  rw [hadj] at ho hrec
  rw [show weight_financial = 0.30 from rfl, show weight_market = 0.25 from rfl,
    show weight_team = 0.25 from rfl, show weight_product = 0.20 from rfl] at ho hrec
  obtain ⟨hOlo, hOhi⟩ :=
    weighted_sum_range hfb.1 hfb.2 hmb.1 hmb.2 htb.1 htb.2 hpl hpu
  refine ⟨?_, ?_, ?_⟩
  · rw [ho]
    have h := round2_mono hOlo
    rwa [round2_eq_self_of_int_mul 42.5 4250 (by norm_num)] at h
  · rw [ho]
    have h := round2_mono hOhi
    rwa [round2_eq_self_of_int_mul 85 8500 (by norm_num)] at h
  · rw [hrec, strong_buy_iff]
    constructor
    · intro h85
      exact weighted_sum_saturates hfb.2 hmb.2 htb.2 hpu (le_antisymm hOhi h85)
    · intro h
      obtain ⟨h1, h2, h3, h4⟩ := h
      rw [h1, h2, h3, h4]
      norm_num

/-- C10 witness: the range theorem applied at the empty input, where the
overall score is exactly the lower end 42.5 and the recommendation is
not strong_buy. -/
theorem analyzer_overall_score_range_witness :
    42.5 ≤ (calculate_investment_score (analyze_text trivial_oracle "")
      empty_document_content).overall_score ∧
    (calculate_investment_score (analyze_text trivial_oracle "")
      empty_document_content).overall_score ≤ 85 :=
  ⟨(analyzer_overall_score_range trivial_oracle "" empty_document_content).1,
   (analyzer_overall_score_range trivial_oracle "" empty_document_content).2.1⟩

/-- C3 counterexample: with a hand-crafted key topic of relevance −10
(representable in the Python input dictionaries, though never produced
by the analyzer) the product score evaluates to −150, outside [0,100],
so the claim does not hold for every input combination. -/
theorem product_score_can_go_negative :
    calculate_product_score negative_topic_analysis empty_document_content = -150 ∧
    calculate_product_score negative_topic_analysis empty_document_content < 0 := by
  have h : calculate_product_score negative_topic_analysis empty_document_content =
      min (50 + 0 + 0 + (-10 : ℚ) * 20 + 0 + 0 + 0) 100 := rfl
  have h2 : (50 + 0 + 0 + (-10 : ℚ) * 20 + 0 + 0 + 0) = -150 := by norm_num
  rw [h, h2]
  constructor
  · exact min_eq_left (by norm_num)
  · rw [min_eq_left (by norm_num)]
    norm_num

/-- C9 witness: the neutral-risk conclusion applied at a concrete text
containing the risk keyword `funding`. -/
theorem analyzer_risk_all_fifty_witness :
    (assess_risk_factors (analyze_text trivial_oracle "funding").risk_factors
      ).overall_risk_score = 50 ∧
    risk_adjustment (assess_risk_factors
      (analyze_text trivial_oracle "funding").risk_factors).overall_risk_score = 0.85 :=
  ⟨(analyzer_risk_all_fifty trivial_oracle "funding").2.2.2.2.2.2.2.1,
   (analyzer_risk_all_fifty trivial_oracle "funding").2.2.2.2.2.2.2.2⟩
